import Mathlib

/-!
# message.ly user model (`models/user.js`)

A shallow embedding of the static methods of the `User` class: `register`,
`authenticate`, `updateLoginTimestamp`, `all`, `get`, `messagesFrom` and
`messagesTo`, over an explicit store holding the `users` and `messages`
relations.

Conventions of the embedding.

* An `async` method becomes a function that returns a `Result`: how the promise
  settles (`Outcome`), the store at that moment, the calls made to the
  collaborators (`bcrypt`, `db.query`) in order, and the queries that were
  issued without being awaited.
* `catch (e) { return e }` fulfils the promise with the error object; this is
  `Outcome.returnedError`, distinct from a rejected promise (`Outcome.thrown`).
* `bcrypt.hash`, the verdict of `bcrypt.compare` on two strings and
  `BCRYPT_WORK_FACTOR` are parameters; `bcrypt.compare` rejects data that is not
  a string.
* A failure of the query executor is an oracle `fault : Query → Option JsError`.
-/

namespace MessageLy

/-! ## Values -/

/-- A JavaScript value of an expected type: `undefined`, `null`, or a proper value. -/
inductive Js (α : Type) where
  | undefined
  | null
  | val (a : α)
  deriving DecidableEq

/-- JavaScript truthiness of a string-or-missing value: `!x` is `true` for
`undefined`, `null` and the empty string. -/
def Js.falsy : Js String → Bool
  | .val s => s == ""
  | _ => true

/-- The string carried by a value (used only after the truthiness check). -/
def Js.str : Js String → String
  | .val s => s
  | _ => ""

/-- A nullable column read into JavaScript: SQL NULL becomes `null`. -/
def Js.ofColumn {α : Type} : Option α → Js α
  | some a => .val a
  | none => .null

/-- Error objects that reach the methods of `User`. -/
inductive JsError where
  /-- `new ExpressError(message, status)` -/
  | express (message : String) (status : Nat)
  /-- An error raised by `db.query`; `code` is its `code` property (the SQLSTATE). -/
  | db (code : String)
  /-- A plain `new Error(message)`, as raised by a library -/
  | error (message : String)
  deriving DecidableEq

/-- A JavaScript value as a request body can carry it in the place of a string. -/
inductive JsValue where
  | undefined
  | null
  | string (s : String)
  | number (n : Int)
  | boolean (b : Bool)
  deriving DecidableEq

/-- How the promise returned by an `async` method settles. -/
inductive Outcome (α : Type) where
  /-- fulfilled with a value of the documented kind -/
  | returned (a : α)
  /-- fulfilled with an error object (`catch (e) { return e }`) -/
  | returnedError (e : JsError)
  /-- rejected with an error -/
  | thrown (e : JsError)
  deriving DecidableEq

/-! ## The store -/

/-- A row of `users`. -/
structure UserRow where
  username : String
  password : String
  first_name : String
  last_name : String
  phone : String
  join_at : Nat
  last_login_at : Nat
  deriving DecidableEq

/-- A row of `messages`. -/
structure MessageRow where
  id : Nat
  from_username : String
  to_username : String
  body : String
  sent_at : Nat
  read_at : Option Nat
  deriving DecidableEq

/-- The two relations behind `db`. -/
structure Store where
  users : List UserRow
  messages : List MessageRow
  deriving DecidableEq

/-- The statements that `models/user.js` sends through `db.query`, with their parameters. -/
inductive Query where
  | insertUser (username hashedPW first_name last_name phone : String)
  | selectPassword (username : String)
  | updateLastLogin (username : String)
  | selectAllUsers
  | selectUser (username : String)
  | selectMessagesFrom (username : String)
  | selectMessagesTo (username : String)
  deriving DecidableEq

/-- A call to a collaborator. -/
inductive Call where
  | bcryptHash (data : String) (rounds : Nat)
  | bcryptCompare (data : JsValue) (encrypted : String)
  | dbQuery (q : Query)
  deriving DecidableEq

/-- What a call of an `async` method leaves behind when its promise settles. -/
structure Result (α : Type) where
  outcome : Outcome α
  store : Store
  calls : List Call
  inFlight : List Query

/-- An executor that never fails. -/
def noFault : Query → Option JsError := fun _ => none

/-- The row that `INSERT ... RETURNING username, password, first_name, last_name, phone` yields. -/
structure CredentialRow where
  username : String
  password : String
  first_name : String
  last_name : String
  phone : String
  deriving DecidableEq

/-- Modelled from the spec: the schema of `users` (the SQL that creates the
tables is not among the sources). Section 6 declares `username` the primary key,
so the `INSERT` of a present username is rejected with the unique-violation
error (SQLSTATE 23505, the code named in the comment of `register`); otherwise
the row is added with `join_at` and `last_login_at` at `CURRENT_TIMESTAMP`. -/
def Store.insertUser (s : Store) (now : Nat)
    (username hashedPW first_name last_name phone : String) :
    Except JsError (CredentialRow × Store) :=
  if s.users.any (fun u => u.username == username) then
    .error (JsError.db "23505")
  else
    .ok ({ username := username, password := hashedPW, first_name := first_name,
           last_name := last_name, phone := phone },
         { s with users := s.users ++
             [{ username := username, password := hashedPW, first_name := first_name,
                last_name := last_name, phone := phone, join_at := now,
                last_login_at := now }] })

/-- The rows of `SELECT username, password FROM users WHERE username = $1`. -/
def Store.selectPassword (s : Store) (username : String) : List (String × String) :=
  (s.users.filter (fun u => u.username == username)).map (fun u => (u.username, u.password))

/-- The effect of `UPDATE users SET last_login_at = CURRENT_TIMESTAMP WHERE username = $1`. -/
def Store.updateLastLogin (s : Store) (now : Nat) (username : String) : Store :=
  { s with users := s.users.map (fun u =>
      if u.username == username then { u with last_login_at := now } else u) }

/-- The rows of `SELECT username, first_name, last_name, phone, join_at, last_login_at
FROM users` (they carry the six selected columns; `password` is not read). -/
def Store.selectAllUsers (s : Store) : List UserRow := s.users

/-- The rows of `SELECT ... FROM users WHERE username = $1`. -/
def Store.selectUser (s : Store) (username : String) : List UserRow :=
  s.users.filter (fun u => u.username == username)

/-! ## The `User` class -/

/-- An instance of `User`, as built by the constructor. -/
structure User where
  username : Js String
  first_name : Js String
  last_name : Js String
  phone : Js String
  join_at : Js Nat
  last_login_at : Js Nat
  deriving DecidableEq

/-- The argument object of `register`. -/
structure RegisterInput where
  username : Js String
  password : Js String
  first_name : Js String
  last_name : Js String
  phone : Js String
  deriving DecidableEq

namespace User

/-- The constructor `constructor(username, first_name, last_name, phone, join_at,
last_login_at)`. A caller that passes fewer arguments leaves the remaining
parameters `undefined`; such a call is written here with `Js.undefined`. -/
def constructor (username first_name last_name phone : Js String)
    (join_at last_login_at : Js Nat) : User :=
  { username := username, first_name := first_name, last_name := last_name,
    phone := phone, join_at := join_at, last_login_at := last_login_at }

/-- The method `register({username, password, first_name, last_name, phone})`. -/
def register (fault : Query → Option JsError) (hash : String → Nat → String)
    (BCRYPT_WORK_FACTOR : Nat) (now : Nat) (s : Store) (inp : RegisterInput) :
    Result CredentialRow :=
  if inp.username.falsy || inp.password.falsy || inp.first_name.falsy
      || inp.last_name.falsy || inp.phone.falsy then
    -- the throw is caught by the method's own catch, which returns the error
    { outcome := .returnedError (.express "Please complete all required fields" 400),
      store := s, calls := [], inFlight := [] }
  else
    let hashedPW := hash inp.password.str BCRYPT_WORK_FACTOR
    let q := Query.insertUser inp.username.str hashedPW inp.first_name.str
      inp.last_name.str inp.phone.str
    let calls := [Call.bcryptHash inp.password.str BCRYPT_WORK_FACTOR, Call.dbQuery q]
    match fault q with
    | some e => { outcome := .returnedError e, store := s, calls := calls, inFlight := [] }
    | none =>
      match s.insertUser now inp.username.str hashedPW inp.first_name.str
          inp.last_name.str inp.phone.str with
      | .error e => { outcome := .returnedError e, store := s, calls := calls, inFlight := [] }
      | .ok (row, s') => { outcome := .returned row, store := s', calls := calls, inFlight := [] }

/-- The method `updateLoginTimestamp(username)`, run to completion. It has no
`try`, so a failing query rejects its promise. -/
def updateLoginTimestamp (fault : Query → Option JsError) (now : Nat) (s : Store)
    (username : String) : Result Unit :=
  match fault (.updateLastLogin username) with
  | some e => { outcome := .thrown e, store := s,
                calls := [.dbQuery (.updateLastLogin username)], inFlight := [] }
  | none => { outcome := .returned (), store := s.updateLastLogin now username,
              calls := [.dbQuery (.updateLastLogin username)], inFlight := [] }

/-- The call `bcrypt.compare(data, encrypted)` with the stored hash (a string):
the promise is rejected when `data` is missing ("data and hash arguments
required") or is not a string ("data and hash must be strings"); on a string it
is fulfilled with the verdict `compare` of the primitive. -/
def bcryptCompare (compare : String → String → Bool) (data : JsValue) (encrypted : String) :
    Except JsError Bool :=
  match data with
  | .string d => .ok (compare d encrypted)
  | .undefined => .error (.error "data and hash arguments required")
  | .null => .error (.error "data and hash arguments required")
  | .number _ => .error (.error "data and hash must be strings")
  | .boolean _ => .error (.error "data and hash must be strings")

/-- The method `authenticate(username, password)`.

The `await bcrypt.compare(...)` of line 55 is inside the `try`: when it rejects,
the `catch` returns the error.

On the success branch `this.updateLoginTimestamp(username)` is called without
`await`: the call runs up to its own `await db.query(...)`, so the `UPDATE` is
issued, and `authenticate` goes on to `return true` with the promise of the
update discarded. The issued statement is recorded in `inFlight`; the store of
the result is the store at the moment `authenticate` settles. -/
def authenticate (fault : Query → Option JsError) (compare : String → String → Bool)
    (s : Store) (username : String) (password : JsValue) : Result Bool :=
  match fault (.selectPassword username) with
  | some e => { outcome := .returnedError e, store := s,
                calls := [.dbQuery (.selectPassword username)], inFlight := [] }
  | none =>
    match (s.selectPassword username).head? with
    | none => { outcome := .returned false, store := s,
                calls := [.dbQuery (.selectPassword username)], inFlight := [] }
    | some user =>
      match bcryptCompare compare password user.2 with
      | .error e =>
        { outcome := .returnedError e, store := s,
          calls := [.dbQuery (.selectPassword username), .bcryptCompare password user.2],
          inFlight := [] }
      | .ok verdict =>
        if verdict then
          { outcome := .returned true, store := s,
            calls := [.dbQuery (.selectPassword username), .bcryptCompare password user.2,
                      .dbQuery (.updateLastLogin username)],
            inFlight := [.updateLastLogin username] }
        else
          { outcome := .returned false, store := s,
            calls := [.dbQuery (.selectPassword username), .bcryptCompare password user.2],
            inFlight := [] }

/-- The store once the statements left in flight have run, each at server time
`now`; a statement that fails changes nothing (its rejection has no handler). -/
def settle (fault : Query → Option JsError) (now : Nat) (s : Store) (inFlight : List Query) :
    Store :=
  inFlight.foldl (fun st q =>
    match q with
    | .updateLastLogin username => (updateLoginTimestamp fault now st username).store
    | _ => st) s

/-- The method `all()`. It has no `try`. The constructor is called with four
arguments, `new User(u.username, u.first_name, u.last_name, u.phone)`, so its
parameters `join_at` and `last_login_at` are `undefined`. -/
def all (fault : Query → Option JsError) (s : Store) : Result (List User) :=
  match fault .selectAllUsers with
  | some e => { outcome := .thrown e, store := s, calls := [.dbQuery .selectAllUsers],
                inFlight := [] }
  | none =>
    { outcome := .returned (s.selectAllUsers.map (fun u =>
        constructor (.val u.username) (.val u.first_name) (.val u.last_name) (.val u.phone)
          .undefined .undefined)),
      store := s, calls := [.dbQuery .selectAllUsers], inFlight := [] }

/-- The method `get(username)`. -/
def get (fault : Query → Option JsError) (s : Store) (username : String) : Result User :=
  match fault (.selectUser username) with
  | some e => { outcome := .returnedError e, store := s,
                calls := [.dbQuery (.selectUser username)], inFlight := [] }
  | none =>
    match (s.selectUser username).head? with
    | none => { outcome := .returnedError (.express "User not found" 404), store := s,
                calls := [.dbQuery (.selectUser username)], inFlight := [] }
    | some u =>
      { outcome := .returned (constructor (.val u.username) (.val u.first_name)
          (.val u.last_name) (.val u.phone) (.val u.join_at) (.val u.last_login_at)),
        store := s, calls := [.dbQuery (.selectUser username)], inFlight := [] }

end User

/-- A row of the result of the two message queries: the four selected columns
of `messages` and the four selected columns of the joined `users` row. -/
structure JoinedRow where
  id : Nat
  body : String
  sent_at : Nat
  read_at : Js Nat
  username : Js String
  first_name : Js String
  last_name : Js String
  phone : Js String
  deriving DecidableEq

/-- The object `{username, first_name, last_name, phone}` nested in a message. -/
structure Contact where
  username : Js String
  first_name : Js String
  last_name : Js String
  phone : Js String
  deriving DecidableEq

/-- An element of the array returned by `messagesFrom`. -/
structure MessageFrom where
  id : Nat
  body : String
  sent_at : Nat
  read_at : Js Nat
  to_user : Contact
  deriving DecidableEq

/-- An element of the array returned by `messagesTo`. -/
structure MessageTo where
  id : Nat
  body : String
  sent_at : Nat
  read_at : Js Nat
  from_user : Contact
  deriving DecidableEq

/-- The relation `messages AS m LEFT JOIN users AS u ON key(m) = u.username`: every
message paired with each matching user, or with no user when none matches. -/
def leftJoinUsers (messages : List MessageRow) (users : List UserRow)
    (key : MessageRow → String) : List (MessageRow × Option UserRow) :=
  (messages.map (fun m =>
    match users.filter (fun u => key m == u.username) with
    | [] => [(m, none)]
    | us => us.map (fun u => (m, some u)))).flatten

/-- The select list `m.id, m.body, m.sent_at, m.read_at, u.username, u.first_name,
u.last_name, u.phone` on a joined pair; the columns of an absent `u` are NULL. -/
def selectColumns : MessageRow × Option UserRow → JoinedRow
  | (m, some u) =>
    { id := m.id, body := m.body, sent_at := m.sent_at, read_at := Js.ofColumn m.read_at,
      username := .val u.username, first_name := .val u.first_name,
      last_name := .val u.last_name, phone := .val u.phone }
  | (m, none) =>
    { id := m.id, body := m.body, sent_at := m.sent_at, read_at := Js.ofColumn m.read_at,
      username := .null, first_name := .null, last_name := .null, phone := .null }

/-- The rows of the query of `messagesFrom`: join on `m.to_username`, keep
`m.from_username = $1`. -/
def Store.selectMessagesFrom (s : Store) (username : String) : List JoinedRow :=
  ((leftJoinUsers s.messages s.users (fun m => m.to_username)).filter
    (fun p => p.1.from_username == username)).map selectColumns

/-- The rows of the query of `messagesTo`: join on `m.from_username`, keep
`m.to_username = $1`. -/
def Store.selectMessagesTo (s : Store) (username : String) : List JoinedRow :=
  ((leftJoinUsers s.messages s.users (fun m => m.from_username)).filter
    (fun p => p.1.to_username == username)).map selectColumns

namespace User

/-- The method `messagesFrom(username)`. -/
def messagesFrom (fault : Query → Option JsError) (s : Store) (username : String) :
    Result (List MessageFrom) :=
  match fault (.selectMessagesFrom username) with
  | some e => { outcome := .returnedError e, store := s,
                calls := [.dbQuery (.selectMessagesFrom username)], inFlight := [] }
  | none =>
    { outcome := .returned ((s.selectMessagesFrom username).map (fun r =>
        { id := r.id, body := r.body, sent_at := r.sent_at, read_at := r.read_at,
          to_user := { username := r.username, first_name := r.first_name,
                       last_name := r.last_name, phone := r.phone } })),
      store := s, calls := [.dbQuery (.selectMessagesFrom username)], inFlight := [] }

/-- The method `messagesTo(username)`. -/
def messagesTo (fault : Query → Option JsError) (s : Store) (username : String) :
    Result (List MessageTo) :=
  match fault (.selectMessagesTo username) with
  | some e => { outcome := .returnedError e, store := s,
                calls := [.dbQuery (.selectMessagesTo username)], inFlight := [] }
  | none =>
    { outcome := .returned ((s.selectMessagesTo username).map (fun r =>
        { id := r.id, body := r.body, sent_at := r.sent_at, read_at := r.read_at,
          from_user := { username := r.username, first_name := r.first_name,
                         last_name := r.last_name, phone := r.phone } })),
      store := s, calls := [.dbQuery (.selectMessagesTo username)], inFlight := [] }

end User

/-! ## Vocabulary of the specification -/

/-- The words of the specification for a field that is "empty or absent". -/
def Js.emptyOrAbsent (x : Js String) : Prop :=
  x = .undefined ∨ x = .null ∨ x = .val ""

/-- Whether the promise was rejected, that is, whether the call failed for its caller. -/
def Outcome.rejected {α : Type} : Outcome α → Bool
  | .thrown _ => true
  | _ => false

/-- The words of the specification for a public profile: the six fields
`username`, `first_name`, `last_name`, `phone`, `join_at`, `last_login_at` with
the values of the row. -/
def UserRow.profile (u : UserRow) : User :=
  { username := .val u.username, first_name := .val u.first_name,
    last_name := .val u.last_name, phone := .val u.phone,
    join_at := .val u.join_at, last_login_at := .val u.last_login_at }

/-- The statement of C9 for a store, two usernames and a message: the message is
listed by `messagesFrom(A)` with recipient `B` and by `messagesTo(B)` with sender
`A`, and is listed neither by `messagesFrom(B)` nor by `messagesTo(A)`. An entry
is "for" the message when it carries its `id`. -/
def MessageListedOneWay (fault : Query → Option JsError) (s : Store) (A B : String)
    (m : MessageRow) : Prop :=
  ∃ fromA toB fromB toA,
    (User.messagesFrom fault s A).outcome = .returned fromA ∧
    (User.messagesTo fault s B).outcome = .returned toB ∧
    (User.messagesFrom fault s B).outcome = .returned fromB ∧
    (User.messagesTo fault s A).outcome = .returned toA ∧
    (∃ e ∈ fromA, e.id = m.id ∧ e.body = m.body ∧ e.sent_at = m.sent_at ∧
      e.read_at = Js.ofColumn m.read_at ∧ e.to_user.username = .val B) ∧
    (∃ e ∈ toB, e.id = m.id ∧ e.body = m.body ∧ e.sent_at = m.sent_at ∧
      e.read_at = Js.ofColumn m.read_at ∧ e.from_user.username = .val A) ∧
    (∀ e ∈ fromB, e.id ≠ m.id) ∧
    (∀ e ∈ toA, e.id ≠ m.id)

/-! ## Sample data -/

/-- A stand-in for `bcrypt.hash` on the sample data. -/
def sampleHash (data : String) (_rounds : Nat) : String := String.mk ('#' :: data.data)

/-- A stand-in for `bcrypt.compare` on the sample data. -/
def sampleCompare (data encrypted : String) : Bool := encrypted == sampleHash data 12

/-- The row of `alice`, whose password is `pw123`. -/
def aliceRow : UserRow :=
  { username := "alice", password := sampleHash "pw123" 12, first_name := "Alice",
    last_name := "A", phone := "555-0001", join_at := 10, last_login_at := 10 }

/-- The row of `bob`, whose password is `pw456`. -/
def bobRow : UserRow :=
  { username := "bob", password := sampleHash "pw456" 12, first_name := "Bob",
    last_name := "B", phone := "555-0002", join_at := 20, last_login_at := 20 }

/-- The message "hi" from `alice` to `bob`. -/
def sampleMessage : MessageRow :=
  { id := 1, from_username := "alice", to_username := "bob", body := "hi",
    sent_at := 30, read_at := none }

/-- A store with the two users and one message from `alice` to `bob`. -/
def sampleStore : Store :=
  { users := [aliceRow, bobRow], messages := [sampleMessage] }

/-- A message that `alice` sent to herself. -/
def selfMessage : MessageRow :=
  { id := 7, from_username := "alice", to_username := "alice", body := "note to self",
    sent_at := 30, read_at := none }

/-- A store with one user and her message to herself. -/
def selfStore : Store :=
  { users := [aliceRow], messages := [selfMessage] }

/-- A message from `alice` to a username that has no row in `users`. -/
def orphanMessage : MessageRow :=
  { id := 2, from_username := "alice", to_username := "ghost", body := "anyone?",
    sent_at := 35, read_at := some 36 }

/-- A store in which the recipient of the only message has no row. -/
def orphanStore : Store :=
  { users := [aliceRow], messages := [orphanMessage] }

/-! ## Lookups by username -/

theorem selectPassword_head_none (s : Store) (username : String) :
    (s.selectPassword username).head? = none ↔ ∀ u ∈ s.users, u.username ≠ username := by
  simp [Store.selectPassword, List.head?_eq_none_iff, List.filter_eq_nil_iff]

theorem selectPassword_head_some (s : Store) (username : String) (p : String × String)
    (h : (s.selectPassword username).head? = some p) :
    ∃ u ∈ s.users, u.username = username ∧ p = (u.username, u.password) := by
  have hm := List.mem_of_mem_head? h
  simp only [Store.selectPassword, List.mem_map, List.mem_filter, beq_iff_eq] at hm
  obtain ⟨u, ⟨hu, hn⟩, rfl⟩ := hm
  exact ⟨u, hu, hn, rfl⟩

/-! ## Authentication -/

/-- The part of the contract of `authenticate` that the code keeps: when the
lookup query succeeds and `username` has no row (whatever `password` is), or
`password` is a string and `username` has a row while no stored hash of
`username` verifies against it, `authenticate` returns `false`, leaves the store
as it was, issues no `UPDATE` and leaves none in flight. -/
theorem authenticate_string_password_failure_returns_false
    (fault : Query → Option JsError) (compare : String → String → Bool) (s : Store)
    (username : String) (password : JsValue)
    (hq : fault (.selectPassword username) = none)
    (h : (∀ u ∈ s.users, u.username ≠ username) ∨
         (∃ p, password = .string p ∧ (∃ u ∈ s.users, u.username = username) ∧
          ∀ u ∈ s.users, u.username = username → compare p u.password = false)) :
    (User.authenticate fault compare s username password).outcome = .returned false ∧
    (User.authenticate fault compare s username password).store = s ∧
    (User.authenticate fault compare s username password).inFlight = [] ∧
    (∀ name, Call.dbQuery (.updateLastLogin name) ∉
      (User.authenticate fault compare s username password).calls) ∧
    (∀ fault2 now, User.settle fault2 now
      (User.authenticate fault compare s username password).store
      (User.authenticate fault compare s username password).inFlight = s) := by
  unfold User.authenticate
  rw [hq]
  cases hh : (s.selectPassword username).head? with
  | none => simp [User.settle]
  | some p =>
    obtain ⟨u, hu, hn, rfl⟩ := selectPassword_head_some s username p hh
    rcases h with h | ⟨pw, rfl, _, h⟩
    · exact absurd hn (h u hu)
    · simp [User.bcryptCompare, h u hu hn, User.settle]

/-- C1, what the code does on a password that is not a string: for a username
that has a row, with the lookup query succeeding, `bcrypt.compare` rejects and
the `catch` of `authenticate` returns that error: the promise is fulfilled with
an error object, not with `false`. The store is unchanged and no `UPDATE` is in
flight. -/
theorem authenticate_non_string_password_returns_error_object
    (fault : Query → Option JsError) (compare : String → String → Bool) (s : Store)
    (username : String) (password : JsValue)
    (hq : fault (.selectPassword username) = none)
    (hrow : ∃ u ∈ s.users, u.username = username)
    (hpw : ∀ p, password ≠ .string p) :
    (∃ e, (User.authenticate fault compare s username password).outcome
      = .returnedError e) ∧
    (User.authenticate fault compare s username password).outcome ≠ .returned false ∧
    (User.authenticate fault compare s username password).outcome.rejected = false ∧
    (User.authenticate fault compare s username password).store = s ∧
    (User.authenticate fault compare s username password).inFlight = [] := by
  unfold User.authenticate
  rw [hq]
  cases hh : (s.selectPassword username).head? with
  | none =>
    obtain ⟨u, hu, hn⟩ := hrow
    exact absurd hn ((selectPassword_head_none s username).1 hh u hu)
  | some p =>
    cases password with
    | string d => exact absurd rfl (hpw d)
    | undefined => simp [User.bcryptCompare, Outcome.rejected]
    | null => simp [User.bcryptCompare, Outcome.rejected]
    | number n => simp [User.bcryptCompare, Outcome.rejected]
    | boolean b => simp [User.bcryptCompare, Outcome.rejected]

theorem authenticate_non_string_password_returns_error_object_witness :
    (User.authenticate noFault sampleCompare sampleStore "alice" .undefined).outcome
      = .returnedError (.error "data and hash arguments required") ∧
    (User.authenticate noFault sampleCompare sampleStore "alice" .undefined).outcome
      ≠ .returned false ∧
    (User.authenticate noFault sampleCompare sampleStore "alice" .undefined).outcome.rejected
      = false :=
  ⟨by decide,
   (authenticate_non_string_password_returns_error_object noFault sampleCompare sampleStore
      "alice" .undefined rfl ⟨aliceRow, by decide, rfl⟩ (by intro p h; cases h)).2.1,
   (authenticate_non_string_password_returns_error_object noFault sampleCompare sampleStore
      "alice" .undefined rfl ⟨aliceRow, by decide, rfl⟩ (by intro p h; cases h)).2.2.1⟩

/-! ## Registration -/

theorem falsy_iff_emptyOrAbsent (x : Js String) : x.falsy = true ↔ x.emptyOrAbsent := by
  cases x <;> simp [Js.falsy, Js.emptyOrAbsent]

theorem insertUser_fresh (s : Store) (now : Nat)
    (username hashedPW first_name last_name phone : String)
    (hnew : ∀ u ∈ s.users, u.username ≠ username) :
    s.insertUser now username hashedPW first_name last_name phone =
      .ok ({ username := username, password := hashedPW, first_name := first_name,
             last_name := last_name, phone := phone },
           { s with users := s.users ++
               [{ username := username, password := hashedPW, first_name := first_name,
                  last_name := last_name, phone := phone, join_at := now,
                  last_login_at := now }] }) := by
  unfold Store.insertUser
  rw [if_neg]
  simpa using hnew

theorem insertUser_taken (s : Store) (now : Nat)
    (username hashedPW first_name last_name phone : String)
    (hold : ∃ u ∈ s.users, u.username = username) :
    s.insertUser now username hashedPW first_name last_name phone =
      .error (JsError.db "23505") := by
  unfold Store.insertUser
  rw [if_pos]
  simpa using hold

/-- C2: with all five fields non-empty, a username not yet in the store and a
working executor, `register` returns the inserted row, the row added to `users`
carries the output of the hash routine as its `password` (not the plaintext),
and, when the hash primitive verifies the password against its own hash, a
following `authenticate` with the same password returns `true`. -/
theorem register_then_authenticate
    (fault : Query → Option JsError) (hash : String → Nat → String)
    (compare : String → String → Bool) (rounds now : Nat) (s : Store)
    (username password first_name last_name phone : String)
    (hu : username ≠ "") (hp : password ≠ "") (hf : first_name ≠ "")
    (hl : last_name ≠ "") (hph : phone ≠ "")
    (hnew : ∀ u ∈ s.users, u.username ≠ username)
    (hins : fault (.insertUser username (hash password rounds) first_name last_name phone)
      = none)
    (hsel : fault (.selectPassword username) = none)
    (hverify : compare password (hash password rounds) = true) :
    (User.register fault hash rounds now s
        ⟨.val username, .val password, .val first_name, .val last_name, .val phone⟩).outcome
      = .returned ⟨username, hash password rounds, first_name, last_name, phone⟩ ∧
    (User.register fault hash rounds now s
        ⟨.val username, .val password, .val first_name, .val last_name, .val phone⟩).store.users
      = s.users ++ [⟨username, hash password rounds, first_name, last_name, phone, now, now⟩] ∧
    (User.authenticate fault compare
        (User.register fault hash rounds now s
          ⟨.val username, .val password, .val first_name, .val last_name, .val phone⟩).store
        username (.string password)).outcome = .returned true := by
  have hreg : User.register fault hash rounds now s
      ⟨.val username, .val password, .val first_name, .val last_name, .val phone⟩ =
      { outcome := .returned ⟨username, hash password rounds, first_name, last_name, phone⟩,
        store := { s with users := s.users ++
          [⟨username, hash password rounds, first_name, last_name, phone, now, now⟩] },
        calls := [.bcryptHash password rounds,
          .dbQuery (.insertUser username (hash password rounds) first_name last_name phone)],
        inFlight := [] } := by
    simp [User.register, Js.falsy, Js.str, hu, hp, hf, hl, hph, hins,
      insertUser_fresh s now username (hash password rounds) first_name last_name phone hnew]
  rw [hreg]
  refine ⟨rfl, rfl, ?_⟩
  have hfil : List.filter (fun u : UserRow => u.username == username) s.users = [] := by
    simpa [List.filter_eq_nil_iff] using hnew
  simp [User.authenticate, User.bcryptCompare, hsel, Store.selectPassword,
    List.filter_append, hfil, hverify]

theorem register_then_authenticate_witness :
    (User.authenticate noFault sampleCompare
        (User.register noFault sampleHash 12 40 sampleStore
          ⟨.val "carol", .val "pw789", .val "Carol", .val "C", .val "555-0003"⟩).store
        "carol" (.string "pw789")).outcome = .returned true :=
  (register_then_authenticate noFault sampleHash sampleCompare 12 40 sampleStore
    "carol" "pw789" "Carol" "C" "555-0003" (by decide) (by decide) (by decide) (by decide)
    (by decide) (by decide) rfl rfl (by decide)).2.2

/-- C3, as the code has it: when at least one of the five fields is empty or
absent, `register` hands back the `ExpressError` "Please complete all required
fields" (status 400) as the value its promise is fulfilled with (the promise is
not rejected); no call to the hash routine or to the store is made and the
store is unchanged, whatever the executor and the hash routine would do. -/
theorem register_missing_field_returns_error
    (fault : Query → Option JsError) (hash : String → Nat → String) (rounds now : Nat)
    (s : Store) (inp : RegisterInput)
    (h : inp.username.emptyOrAbsent ∨ inp.password.emptyOrAbsent ∨
         inp.first_name.emptyOrAbsent ∨ inp.last_name.emptyOrAbsent ∨
         inp.phone.emptyOrAbsent) :
    (User.register fault hash rounds now s inp).outcome
      = .returnedError (.express "Please complete all required fields" 400) ∧
    (User.register fault hash rounds now s inp).outcome.rejected = false ∧
    (User.register fault hash rounds now s inp).calls = [] ∧
    (User.register fault hash rounds now s inp).inFlight = [] ∧
    (User.register fault hash rounds now s inp).store = s := by
  have hc : (inp.username.falsy || inp.password.falsy || inp.first_name.falsy
      || inp.last_name.falsy || inp.phone.falsy) = true := by
    simp only [Bool.or_eq_true, falsy_iff_emptyOrAbsent]
    tauto
  unfold User.register
  rw [if_pos hc]
  simp [Outcome.rejected]

theorem register_missing_field_returns_error_witness :
    (User.register noFault sampleHash 12 40 sampleStore
        ⟨.val "carol", .val "pw789", .undefined, .val "C", .val "555-0003"⟩).outcome
      = .returnedError (.express "Please complete all required fields" 400) ∧
    (User.register noFault sampleHash 12 40 sampleStore
        ⟨.val "carol", .val "pw789", .undefined, .val "C", .val "555-0003"⟩).store
      = sampleStore :=
  ⟨(register_missing_field_returns_error noFault sampleHash 12 40 sampleStore
      ⟨.val "carol", .val "pw789", .undefined, .val "C", .val "555-0003"⟩
      (Or.inr (Or.inr (Or.inl (Or.inl rfl))))).1,
   (register_missing_field_returns_error noFault sampleHash 12 40 sampleStore
      ⟨.val "carol", .val "pw789", .undefined, .val "C", .val "555-0003"⟩
      (Or.inr (Or.inr (Or.inl (Or.inl rfl))))).2.2.2.2⟩

/-- C3, as stated, fails: with an empty `username` the promise of `register` is
fulfilled with the error object, it is not rejected. -/
theorem register_missing_field_not_rejected :
    (User.register noFault sampleHash 12 40 sampleStore
        ⟨.val "", .val "pw789", .val "Carol", .val "C", .val "555-0003"⟩).outcome
      = .returnedError (.express "Please complete all required fields" 400) ∧
    (User.register noFault sampleHash 12 40 sampleStore
        ⟨.val "", .val "pw789", .val "Carol", .val "C", .val "555-0003"⟩).outcome.rejected
      = false := by
  decide

/-- C4, what the code does: registering a username that already has a row, with
all five fields non-empty and a reachable store, hands back the raw
unique-violation error of the executor (code 23505) as the fulfilled value, the
same way as any other error; no distinct error is built. The store is
unchanged. -/
theorem register_duplicate_returns_raw_error
    (fault : Query → Option JsError) (hash : String → Nat → String) (rounds now : Nat)
    (s : Store) (username password first_name last_name phone : String)
    (hu : username ≠ "") (hp : password ≠ "") (hf : first_name ≠ "")
    (hl : last_name ≠ "") (hph : phone ≠ "")
    (hold : ∃ u ∈ s.users, u.username = username)
    (hins : fault (.insertUser username (hash password rounds) first_name last_name phone)
      = none) :
    (User.register fault hash rounds now s
        ⟨.val username, .val password, .val first_name, .val last_name, .val phone⟩).outcome
      = .returnedError (.db "23505") ∧
    (User.register fault hash rounds now s
        ⟨.val username, .val password, .val first_name, .val last_name, .val phone⟩).store
      = s := by
  simp [User.register, Js.falsy, Js.str, hu, hp, hf, hl, hph, hins,
    insertUser_taken s now username (hash password rounds) first_name last_name phone hold]

theorem register_duplicate_returns_raw_error_witness :
    (User.register noFault sampleHash 12 40 sampleStore
        ⟨.val "alice", .val "other", .val "Alice", .val "A", .val "555-0009"⟩).outcome
      = .returnedError (.db "23505") ∧
    (User.register noFault sampleHash 12 40 sampleStore
        ⟨.val "alice", .val "other", .val "Alice", .val "A", .val "555-0009"⟩).store
      = sampleStore :=
  register_duplicate_returns_raw_error noFault sampleHash 12 40 sampleStore
    "alice" "other" "Alice" "A" "555-0009" (by decide) (by decide) (by decide) (by decide)
    (by decide) ⟨aliceRow, by decide, rfl⟩ rfl

/-! ## Successful authentication and executor failures -/

/-- C5, what the code does: for a username that has a row and whose stored
hashes verify against `password`, `authenticate` returns `true` while the store
is still exactly as before the call: the `UPDATE` of `last_login_at` has been
issued but is only in flight. When it later runs at server time `now` it sets
`last_login_at` of the matching rows; when it fails, nothing changes and the
failure reaches nobody. -/
theorem authenticate_success_leaves_update_in_flight
    (fault : Query → Option JsError) (compare : String → String → Bool) (s : Store)
    (username password : String)
    (hq : fault (.selectPassword username) = none)
    (hrow : ∃ u ∈ s.users, u.username = username)
    (hok : ∀ u ∈ s.users, u.username = username → compare password u.password = true) :
    (User.authenticate fault compare s username (.string password)).outcome
      = .returned true ∧
    (User.authenticate fault compare s username (.string password)).store = s ∧
    (User.authenticate fault compare s username (.string password)).inFlight
      = [.updateLastLogin username] ∧
    (∀ now, User.settle noFault now s [.updateLastLogin username]
      = s.updateLastLogin now username) ∧
    (∀ fault2 e now, fault2 (.updateLastLogin username) = some e →
      User.settle fault2 now s [.updateLastLogin username] = s) := by
  have hset1 : ∀ now, User.settle noFault now s [.updateLastLogin username]
      = s.updateLastLogin now username := by
    intro now
    simp [User.settle, User.updateLoginTimestamp, noFault]
  have hset2 : ∀ fault2 e now, fault2 (.updateLastLogin username) = some e →
      User.settle fault2 now s [.updateLastLogin username] = s := by
    intro fault2 e now he
    simp [User.settle, User.updateLoginTimestamp, he]
  unfold User.authenticate
  rw [hq]
  cases hh : (s.selectPassword username).head? with
  | none =>
    obtain ⟨u, hu, hn⟩ := hrow
    exact absurd hn ((selectPassword_head_none s username).1 hh u hu)
  | some p =>
    obtain ⟨u, hu, hn, rfl⟩ := selectPassword_head_some s username p hh
    simp only [User.bcryptCompare, hok u hu hn, if_true]
    exact ⟨trivial, trivial, trivial, hset1, hset2⟩

theorem authenticate_success_leaves_update_in_flight_witness :
    (User.authenticate noFault sampleCompare sampleStore "alice" (.string "pw123")).outcome
      = .returned true ∧
    (User.authenticate noFault sampleCompare sampleStore "alice" (.string "pw123")).store
      = sampleStore ∧
    (User.authenticate noFault sampleCompare sampleStore "alice" (.string "pw123")).inFlight
      = [.updateLastLogin "alice"] :=
  ⟨(authenticate_success_leaves_update_in_flight noFault sampleCompare sampleStore
      "alice" "pw123" rfl ⟨aliceRow, by decide, rfl⟩ (by decide)).1,
   (authenticate_success_leaves_update_in_flight noFault sampleCompare sampleStore
      "alice" "pw123" rfl ⟨aliceRow, by decide, rfl⟩ (by decide)).2.1,
   (authenticate_success_leaves_update_in_flight noFault sampleCompare sampleStore
      "alice" "pw123" rfl ⟨aliceRow, by decide, rfl⟩ (by decide)).2.2.1⟩

/-- C6, what the code does: when the lookup query fails with `e`, the promise of
`authenticate` is fulfilled with the error object `e` itself: the call is not
rejected, and the value handed back is not a boolean. -/
theorem authenticate_query_failure_returns_error_object
    (fault : Query → Option JsError) (compare : String → String → Bool) (s : Store)
    (username : String) (password : JsValue) (e : JsError)
    (hq : fault (.selectPassword username) = some e) :
    (User.authenticate fault compare s username password).outcome = .returnedError e ∧
    (User.authenticate fault compare s username password).outcome.rejected = false ∧
    (∀ b : Bool, (User.authenticate fault compare s username password).outcome
      ≠ .returned b) := by
  unfold User.authenticate
  rw [hq]
  simp [Outcome.rejected]

theorem authenticate_query_failure_returns_error_object_witness :
    (User.authenticate (fun _ => some (.db "ECONNREFUSED")) sampleCompare sampleStore
        "alice" (.string "pw123")).outcome = .returnedError (.db "ECONNREFUSED") ∧
    (User.authenticate (fun _ => some (.db "ECONNREFUSED")) sampleCompare sampleStore
        "alice" (.string "pw123")).outcome.rejected = false :=
  ⟨(authenticate_query_failure_returns_error_object (fun _ => some (.db "ECONNREFUSED"))
      sampleCompare sampleStore "alice" (.string "pw123") (.db "ECONNREFUSED") rfl).1,
   (authenticate_query_failure_returns_error_object (fun _ => some (.db "ECONNREFUSED"))
      sampleCompare sampleStore "alice" (.string "pw123") (.db "ECONNREFUSED") rfl).2.1⟩

/-! ## Profiles -/

theorem selectUser_head_none (s : Store) (username : String) :
    (s.selectUser username).head? = none ↔ ∀ u ∈ s.users, u.username ≠ username := by
  simp [Store.selectUser, List.head?_eq_none_iff, List.filter_eq_nil_iff]

theorem selectUser_head_some (s : Store) (username : String) (v : UserRow)
    (h : (s.selectUser username).head? = some v) :
    v ∈ s.users ∧ v.username = username := by
  have hm := List.mem_of_mem_head? h
  simpa [Store.selectUser] using hm

/-- C7, as the code has it: with a reachable store whose usernames are unique,
`get` hands back the `ExpressError` "User not found" (status 404) exactly when
no row has the username, and it does so as the value its promise is fulfilled
with (the promise is never rejected); for a username that has a row it returns
the `User` whose six fields are those of that row. -/
theorem get_returns_profile_or_error_object
    (fault : Query → Option JsError) (s : Store) (username : String)
    (hq : fault (.selectUser username) = none)
    (huniq : ∀ u ∈ s.users, ∀ v ∈ s.users, u.username = v.username → u = v) :
    ((User.get fault s username).outcome = .returnedError (.express "User not found" 404)
      ↔ ∀ u ∈ s.users, u.username ≠ username) ∧
    (∀ u ∈ s.users, u.username = username →
      (User.get fault s username).outcome = .returned u.profile) ∧
    (User.get fault s username).outcome.rejected = false := by
  unfold User.get
  rw [hq]
  cases hh : (s.selectUser username).head? with
  | none =>
    have hnone := (selectUser_head_none s username).1 hh
    refine ⟨⟨fun _ => hnone, fun _ => rfl⟩, ?_, rfl⟩
    intro u hu hn
    exact absurd hn (hnone u hu)
  | some v =>
    obtain ⟨hv, hvn⟩ := selectUser_head_some s username v hh
    refine ⟨⟨fun h => ?_, fun h => absurd hvn (h v hv)⟩, ?_, rfl⟩
    · simp at h
    · intro u hu hn
      have huv : u = v := huniq u hu v hv (hn.trans hvn.symm)
      subst huv
      rfl

theorem get_returns_profile_or_error_object_witness :
    (User.get noFault sampleStore "bob").outcome = .returned bobRow.profile :=
  (get_returns_profile_or_error_object noFault sampleStore "bob" rfl (by decide)).2.1
    bobRow (by decide) rfl

/-- C7, as stated, fails: for a username without a row the promise of `get` is
fulfilled with the error object, it is not rejected. -/
theorem get_unknown_not_rejected :
    (User.get noFault sampleStore "nobody").outcome
      = .returnedError (.express "User not found" 404) ∧
    (User.get noFault sampleStore "nobody").outcome.rejected = false := by
  decide

/-- C8, as the code has it: with a reachable store `all` returns one `User` per
row of `users`, in order, each with `username`, `first_name`, `last_name` and
`phone` of its row, and with `join_at` and `last_login_at` left `undefined`. -/
theorem all_returns_four_fields
    (fault : Query → Option JsError) (s : Store) (hq : fault .selectAllUsers = none) :
    ∃ l, (User.all fault s).outcome = .returned l ∧
      List.Forall₂ (fun (u : UserRow) (p : User) =>
        p.username = .val u.username ∧ p.first_name = .val u.first_name ∧
        p.last_name = .val u.last_name ∧ p.phone = .val u.phone ∧
        p.join_at = .undefined ∧ p.last_login_at = .undefined) s.users l := by
  unfold User.all
  rw [hq]
  refine ⟨_, rfl, ?_⟩
  simp only [Store.selectAllUsers]
  rw [List.forall₂_map_right_iff]
  exact List.forall₂_same.2 (fun u _ => by simp [User.constructor])

theorem all_returns_four_fields_witness :
    ∃ l, (User.all noFault sampleStore).outcome = .returned l ∧
      List.Forall₂ (fun (u : UserRow) (p : User) =>
        p.username = .val u.username ∧ p.first_name = .val u.first_name ∧
        p.last_name = .val u.last_name ∧ p.phone = .val u.phone ∧
        p.join_at = .undefined ∧ p.last_login_at = .undefined) sampleStore.users l :=
  all_returns_four_fields noFault sampleStore rfl

/-- C8, as stated, fails: on the sample store the profiles returned by `all` are
not the six-field profiles of the rows; `join_at` of the first one is
`undefined`, not the value of the row. -/
theorem all_drops_timestamps :
    (User.all noFault sampleStore).outcome
      ≠ .returned (sampleStore.users.map UserRow.profile) ∧
    (User.all noFault sampleStore).outcome = .returned
      [{ username := .val "alice", first_name := .val "Alice", last_name := .val "A",
         phone := .val "555-0001", join_at := .undefined, last_login_at := .undefined },
       { username := .val "bob", first_name := .val "Bob", last_name := .val "B",
         phone := .val "555-0002", join_at := .undefined, last_login_at := .undefined }] := by
  decide

/-! ## Messages -/

theorem mem_leftJoinUsers (messages : List MessageRow) (users : List UserRow)
    (key : MessageRow → String) (m : MessageRow) (o : Option UserRow) :
    (m, o) ∈ leftJoinUsers messages users key ↔
      m ∈ messages ∧
        ((o = none ∧ ∀ u ∈ users, u.username ≠ key m) ∨
         (∃ u ∈ users, u.username = key m ∧ o = some u)) := by
  unfold leftJoinUsers
  simp only [List.mem_flatten, List.mem_map]
  constructor
  · rintro ⟨l, ⟨m2, hm2, rfl⟩, hin⟩
    cases hf : List.filter (fun u : UserRow => key m2 == u.username) users with
    | nil =>
      rw [hf] at hin
      simp only [List.mem_singleton, Prod.mk.injEq] at hin
      obtain ⟨rfl, rfl⟩ := hin
      refine ⟨hm2, Or.inl ⟨rfl, ?_⟩⟩
      intro u hu hn
      have : u ∈ List.filter (fun u : UserRow => key m == u.username) users := by
        simp [List.mem_filter, hu, hn]
      rw [hf] at this
      exact absurd this (List.not_mem_nil u)
    | cons a as =>
      rw [hf] at hin
      simp only [List.mem_map, Prod.mk.injEq] at hin
      obtain ⟨u, hu, rfl, rfl⟩ := hin
      rw [← hf] at hu
      simp only [List.mem_filter, beq_iff_eq] at hu
      exact ⟨hm2, Or.inr ⟨u, hu.1, hu.2.symm, rfl⟩⟩
  · rintro ⟨hm, h⟩
    refine ⟨_, ⟨m, hm, rfl⟩, ?_⟩
    rcases h with ⟨rfl, hno⟩ | ⟨u, hu, hn, rfl⟩
    · have hf : List.filter (fun u : UserRow => key m == u.username) users = [] := by
        rw [List.filter_eq_nil_iff]
        intro u hu
        simpa using fun h => hno u hu h.symm
      rw [hf]
      simp
    · have hmem : u ∈ List.filter (fun u : UserRow => key m == u.username) users := by
        simp [List.mem_filter, hu, hn]
      cases hf : List.filter (fun u : UserRow => key m == u.username) users with
      | nil =>
        rw [hf] at hmem
        exact absurd hmem (List.not_mem_nil u)
      | cons a as =>
        rw [hf] at hmem
        simp only [List.mem_map, Prod.mk.injEq, true_and, exists_eq_right]
        exact ⟨u, hmem, rfl⟩

/-- The pairs behind the rows of `messagesFrom`. -/
theorem mem_selectMessagesFrom (s : Store) (username : String) (r : JoinedRow) :
    r ∈ s.selectMessagesFrom username ↔
      ∃ m o, (m, o) ∈ leftJoinUsers s.messages s.users (fun m => m.to_username) ∧
        m.from_username = username ∧ r = selectColumns (m, o) := by
  simp only [Store.selectMessagesFrom, List.mem_map, List.mem_filter, beq_iff_eq, Prod.exists]
  constructor
  · rintro ⟨m, o, ⟨h1, h2⟩, rfl⟩
    exact ⟨m, o, h1, h2, rfl⟩
  · rintro ⟨m, o, h1, h2, rfl⟩
    exact ⟨m, o, ⟨h1, h2⟩, rfl⟩

/-- The pairs behind the rows of `messagesTo`. -/
theorem mem_selectMessagesTo (s : Store) (username : String) (r : JoinedRow) :
    r ∈ s.selectMessagesTo username ↔
      ∃ m o, (m, o) ∈ leftJoinUsers s.messages s.users (fun m => m.from_username) ∧
        m.to_username = username ∧ r = selectColumns (m, o) := by
  simp only [Store.selectMessagesTo, List.mem_map, List.mem_filter, beq_iff_eq, Prod.exists]
  constructor
  · rintro ⟨m, o, ⟨h1, h2⟩, rfl⟩
    exact ⟨m, o, h1, h2, rfl⟩
  · rintro ⟨m, o, h1, h2, rfl⟩
    exact ⟨m, o, ⟨h1, h2⟩, rfl⟩

theorem selectColumns_id (p : MessageRow × Option UserRow) : (selectColumns p).id = p.1.id := by
  obtain ⟨m, o⟩ := p
  cases o <;> rfl

/-- C9, amended with `A ≠ B`: for two distinct usernames that both have a row in
`users`, a reachable store in which message ids are unique, and a message row
from `A` to `B`: `messagesFrom(A)` lists it with `to_user.username = B`,
`messagesTo(B)` lists it with `from_user.username = A`, and neither
`messagesFrom(B)` nor `messagesTo(A)` lists it. -/
theorem messages_listed_one_way
    (fault : Query → Option JsError) (s : Store) (A B : String) (m : MessageRow)
    (hfA : fault (.selectMessagesFrom A) = none) (hfB : fault (.selectMessagesFrom B) = none)
    (htA : fault (.selectMessagesTo A) = none) (htB : fault (.selectMessagesTo B) = none)
    (hA : ∃ u ∈ s.users, u.username = A) (hB : ∃ u ∈ s.users, u.username = B)
    (hid : ∀ m1 ∈ s.messages, ∀ m2 ∈ s.messages, m1.id = m2.id → m1 = m2)
    (hm : m ∈ s.messages) (hfrom : m.from_username = A) (hto : m.to_username = B)
    (hAB : A ≠ B) :
    MessageListedOneWay fault s A B m := by
  obtain ⟨a, ha, han⟩ := hA
  obtain ⟨b, hb, hbn⟩ := hB
  unfold MessageListedOneWay User.messagesFrom User.messagesTo
  rw [hfA, hfB, htA, htB]
  refine ⟨_, _, _, _, rfl, rfl, rfl, rfl, ?_, ?_, ?_, ?_⟩
  · refine ⟨_, List.mem_map.2 ⟨selectColumns (m, some b), ?_, rfl⟩, ?_⟩
    · exact (mem_selectMessagesFrom s A _).2 ⟨m, some b,
        (mem_leftJoinUsers _ _ _ m (some b)).2 ⟨hm, Or.inr ⟨b, hb, hbn.trans hto.symm, rfl⟩⟩,
        hfrom, rfl⟩
    · simp [selectColumns, hbn]
  · refine ⟨_, List.mem_map.2 ⟨selectColumns (m, some a), ?_, rfl⟩, ?_⟩
    · exact (mem_selectMessagesTo s B _).2 ⟨m, some a,
        (mem_leftJoinUsers _ _ _ m (some a)).2 ⟨hm, Or.inr ⟨a, ha, han.trans hfrom.symm, rfl⟩⟩,
        hto, rfl⟩
    · simp [selectColumns, han]
  · intro e he heq
    obtain ⟨r, hr, rfl⟩ := List.mem_map.1 he
    obtain ⟨m2, o, hj, hf2, rfl⟩ := (mem_selectMessagesFrom s B r).1 hr
    have hm2 : m2 ∈ s.messages := ((mem_leftJoinUsers _ _ _ m2 o).1 hj).1
    have hids : m2.id = m.id := by
      have := selectColumns_id (m2, o)
      simp only at heq this
      rw [← this]; exact heq
    have : m2 = m := hid m2 hm2 m hm hids
    subst this
    exact hAB (hfrom.symm.trans hf2)
  · intro e he heq
    obtain ⟨r, hr, rfl⟩ := List.mem_map.1 he
    obtain ⟨m2, o, hj, hf2, rfl⟩ := (mem_selectMessagesTo s A r).1 hr
    have hm2 : m2 ∈ s.messages := ((mem_leftJoinUsers _ _ _ m2 o).1 hj).1
    have hids : m2.id = m.id := by
      have := selectColumns_id (m2, o)
      simp only at heq this
      rw [← this]; exact heq
    have : m2 = m := hid m2 hm2 m hm hids
    subst this
    exact hAB (hf2.symm.trans hto)

theorem messages_listed_one_way_witness :
    MessageListedOneWay noFault sampleStore "alice" "bob" sampleMessage :=
  messages_listed_one_way noFault sampleStore "alice" "bob" sampleMessage rfl rfl rfl rfl
    ⟨aliceRow, by decide, rfl⟩ ⟨bobRow, by decide, rfl⟩ (by decide) (by decide) rfl rfl
    (by decide)

/-- C9, as stated, fails when `A` and `B` are the same user: `alice` has a row,
the store holds a message from `alice` to `alice`, and `messagesFrom("alice")`
lists it, so it is listed by `messagesFrom(B)` as well. -/
theorem messages_to_self_listed_both_ways :
    (∃ u ∈ selfStore.users, u.username = "alice") ∧
    selfMessage ∈ selfStore.messages ∧
    selfMessage.from_username = "alice" ∧ selfMessage.to_username = "alice" ∧
    (User.messagesFrom noFault selfStore "alice").outcome = .returned
      [{ id := 7, body := "note to self", sent_at := 30, read_at := .null,
         to_user := { username := .val "alice", first_name := .val "Alice",
                      last_name := .val "A", phone := .val "555-0001" } }] ∧
    ¬ MessageListedOneWay noFault selfStore "alice" "alice" selfMessage := by
  refine ⟨⟨aliceRow, by decide, rfl⟩, by decide, rfl, rfl, by decide, ?_⟩
  rintro ⟨fromA, toB, fromB, toA, h1, _, h3, _, ⟨e, he, heid, _⟩, _, hno, _⟩
  rw [h1] at h3
  injection h3 with h3
  subst h3
  exact hno e he heid

/-- C10: with a reachable store, every message row with `from_username =
username` has an entry in `messagesFrom(username)` carrying its `id`, `body`,
`sent_at` and `read_at`; when no row of `users` matches its `to_username`, that
entry is the one whose `to_user` has `username`, `first_name`, `last_name` and
`phone` all `null`. -/
theorem messagesFrom_keeps_message_without_recipient
    (fault : Query → Option JsError) (s : Store) (username : String) (m : MessageRow)
    (hq : fault (.selectMessagesFrom username) = none)
    (hm : m ∈ s.messages) (hfrom : m.from_username = username) :
    ∃ l, (User.messagesFrom fault s username).outcome = .returned l ∧
      (∃ e ∈ l, e.id = m.id ∧ e.body = m.body ∧ e.sent_at = m.sent_at ∧
        e.read_at = Js.ofColumn m.read_at) ∧
      ((∀ u ∈ s.users, u.username ≠ m.to_username) →
        ({ id := m.id, body := m.body, sent_at := m.sent_at,
           read_at := Js.ofColumn m.read_at,
           to_user := { username := .null, first_name := .null, last_name := .null,
                        phone := .null } } : MessageFrom) ∈ l) := by
  unfold User.messagesFrom
  rw [hq]
  refine ⟨_, rfl, ?_, ?_⟩
  · by_cases hex : ∃ u ∈ s.users, u.username = m.to_username
    · obtain ⟨u, hu, hn⟩ := hex
      refine ⟨_, List.mem_map.2 ⟨selectColumns (m, some u), ?_, rfl⟩, ?_⟩
      · exact (mem_selectMessagesFrom s username _).2 ⟨m, some u,
          (mem_leftJoinUsers _ _ _ m (some u)).2 ⟨hm, Or.inr ⟨u, hu, hn, rfl⟩⟩, hfrom, rfl⟩
      · simp [selectColumns]
    · have hno : ∀ u ∈ s.users, u.username ≠ m.to_username := by
        intro u hu hn
        exact hex ⟨u, hu, hn⟩
      refine ⟨_, List.mem_map.2 ⟨selectColumns (m, none), ?_, rfl⟩, ?_⟩
      · exact (mem_selectMessagesFrom s username _).2 ⟨m, none,
          (mem_leftJoinUsers _ _ _ m none).2 ⟨hm, Or.inl ⟨rfl, hno⟩⟩, hfrom, rfl⟩
      · simp [selectColumns]
  · intro hno
    refine List.mem_map.2 ⟨selectColumns (m, none), ?_, rfl⟩
    exact (mem_selectMessagesFrom s username _).2 ⟨m, none,
      (mem_leftJoinUsers _ _ _ m none).2 ⟨hm, Or.inl ⟨rfl, hno⟩⟩, hfrom, rfl⟩

theorem messagesFrom_keeps_message_without_recipient_witness :
    ∃ l, (User.messagesFrom noFault orphanStore "alice").outcome = .returned l ∧
      (∃ e ∈ l, e.id = orphanMessage.id ∧ e.body = orphanMessage.body ∧
        e.sent_at = orphanMessage.sent_at ∧
        e.read_at = Js.ofColumn orphanMessage.read_at) ∧
      ((∀ u ∈ orphanStore.users, u.username ≠ orphanMessage.to_username) →
        ({ id := orphanMessage.id, body := orphanMessage.body,
           sent_at := orphanMessage.sent_at,
           read_at := Js.ofColumn orphanMessage.read_at,
           to_user := { username := .null, first_name := .null, last_name := .null,
                        phone := .null } } : MessageFrom) ∈ l) :=
  messagesFrom_keeps_message_without_recipient noFault orphanStore "alice" orphanMessage
    rfl (by decide) rfl

end MessageLy
